import Mathlib

/-!
Verification of the si47xx radio console/notification coordination subsystem.

The definitions below are a shallow embedding of the repository sources:
`src/events.rs` (command queue and notification bus wrappers), `src/console.rs`
(the shared `StdOut` writer), and `src/cli.rs` (the prompt/status model, the
notification handler, the command processor, and the coordinator race loop of
`my_task`).

Modelling conventions:
- Rust `u8` bytes are `Nat`; `f32` frequency values are exact rationals `ℚ`
  (the code never computes with a frequency, it only stores, copies and
  formats it, so no rounding behaviour of `f32` is relevant to any claim).
- Stateful code is embedded as explicit state passing; suspending operations
  that would block forever are `Option`-valued or are driven by an explicit
  schedule of race outcomes.
- External collaborators whose implementation is not in the repository
  (embassy-sync channels, the embedded-cli parser, the UARTE HAL error type)
  are modelled from the specification's stated contracts; each such
  definition carries a doc comment starting with `Modelled from the spec:`.
-/

/-- `leadsWith n h` is true when the char list `n` is an initial segment of `h`. -/
def leadsWith : List Char → List Char → Bool
  | [], _ => true
  | _ :: _, [] => false
  | a :: as, b :: bs => a == b && leadsWith as bs

/-- `hasSubstr n h` is true when `n` occurs contiguously inside `h`. -/
def hasSubstr (needle : List Char) : List Char → Bool
  | [] => needle.isEmpty
  | c :: rest => leadsWith needle (c :: rest) || hasSubstr needle rest

namespace Si47xxRadio

/-- Modelled from the spec: the `si473x` driver's tune-status value
("tune-status(frequency, signal/quality fields)"); the crate itself is not in
the repository.  The console only reads `frequency`. -/
structure Si47xxTuneStatus where
  frequency : ℚ
  rssi : ℕ
  snr : ℕ
deriving DecidableEq

/-- Modelled from the spec: the `si473x` driver's revision value
("revision-info(hardware identifiers)"); the crate itself is not in the
repository.  The console never inspects its fields. -/
structure Si47xxRevision where
  partNumber : ℕ
  firmware : ℕ
deriving DecidableEq

/-- `SystemEvent` from `src/events.rs`: operator intents carried by the
command queue. -/
inductive SystemEvent where
  | radioFmOn
  | radioAmOn
  | radioOff
  | radioSeekUp
  | radioSeekDown
  | radioSetFrequency (frequency : ℚ)
  | radioMute
  | radioUnmute
  | radioVolumeUp
  | radioVolumeDown
  | radioVolumeSet (level : ℕ)
deriving DecidableEq

/-- `SystemNotify` from `src/events.rs`: status notifications carried by the
notification bus. -/
inductive SystemNotify where
  | tuneStatus (ts : Si47xxTuneStatus)
  | revisionInfo (rev : Si47xxRevision)
  | radioFmOn
  | radioAmOn
  | radioOff
  | radioMute
  | radioUnmute
  | volumeChanged (level : ℕ)
deriving DecidableEq

/-! ### Command queue (`src/events.rs`, `EVENT_CHANNEL` and its wrappers) -/

/-- Modelled from the spec: the state of
`EVENT_CHANNEL: Channel<ThreadModeRawMutex, SystemEvent, 1>` — the
embassy-sync `Channel` implementation is not in the repository; the spec
describes it as a single-slot mailbox, so its state is the at-most-one
pending intent. -/
def EventChannel : Type := Option SystemEvent

/-- Modelled from the spec: `Channel::try_send` on the capacity-1 channel —
"returns immediately; if the slot is occupied, the intent is dropped and the
call reports not delivered".  The `Bool` component is the delivery report
(`Ok`/`Err` of the Rust `try_send`). -/
def Channel.try_send (e : SystemEvent) (ch : EventChannel) : EventChannel × Bool :=
  match ch with
  | none => (some e, true)
  | some x => (some x, false)

/-- `event_try_send` from `src/events.rs`:
`EVENT_CHANNEL.try_send(state).ok();` — the delivery report of the inner
`try_send` is discarded by `.ok();` and the Rust function returns `()`,
modelled here as the `Unit` component of the result. -/
def event_try_send (e : SystemEvent) (ch : EventChannel) : EventChannel × Unit :=
  ((Channel.try_send e ch).1, ())

/-- `event_receive` from `src/events.rs`: suspending receive of the sole
consumer; `none` models "suspends because no intent is pending". -/
def event_receive (ch : EventChannel) : Option (SystemEvent × EventChannel) :=
  match ch with
  | none => none
  | some e => some (e, none)

/-! ### Notification bus (`src/events.rs`, `NOTIFICATION_CHANNEL`) -/

/-- Capacity of `NOTIFICATION_CHANNEL: PubSubChannel<ThreadModeRawMutex,
SystemNotify, 4, 4, 2>` from `src/events.rs`. -/
def notifyCap : ℕ := 4

/-- Modelled from the spec: the state of the notification bus — the
embassy-sync `PubSubChannel` implementation is not in the repository.  The
bus is recorded as the full publication log; only the last `notifyCap`
entries are retained for a subscriber, older ones are overwritten
(overwrite-oldest policy).  A subscriber is its cursor: the index into the
log of the next notification it has not read. -/
structure PubSubState where
  log : List SystemNotify
deriving DecidableEq

/-- Modelled from the spec: `publish` — "delivers a copy to every currently
registered subscriber's independent cursor.  Never blocks indefinitely on a
stalled subscriber"; publication appends to the log unconditionally, for
every bus state and regardless of any subscriber's cursor (the overwrite of
a lagging subscriber's oldest unread entries is realized at its next read,
which skips to the oldest retained entry). -/
def publish (bus : PubSubState) (n : SystemNotify) : PubSubState :=
  ⟨bus.log ++ [n]⟩

/-- Modelled from the spec: the subscriber's suspending read
(`next_message_pure` in `src/cli.rs`) — "if entries were overwritten before
being read, … skip silently to the oldest still-available entry"; `none`
models "suspends because nothing new was published". -/
def next_message_pure (bus : PubSubState) (cursor : ℕ) :
    Option (SystemNotify × ℕ) :=
  if cursor < bus.log.length then
    let i := max cursor (bus.log.length - notifyCap)
    some (bus.log.getD i SystemNotify.radioOff, i + 1)
  else
    none

/-! ### Shared console writer (`src/console.rs`) -/

/-- Modelled from the spec: the error type of the transport write primitive
(`embassy_nrf::uarte::Error`, a HAL type not in the repository). -/
inductive UarteError where
  | txError
deriving DecidableEq

/-- `SerialPort::write` from `src/console.rs`: inside the critical section,
if a TX handle has been installed the buffer goes to
`tx.blocking_write(buf)` whose result is discarded (`let _ = …`); if no TX
is installed the bytes are silently dropped.  Either way the function
returns `Ok(buf.len())`.  `txInstalled` models whether `stdout_init` has run;
`txOutcome` models the result of the underlying `blocking_write`, which the
code ignores.  The first component is the byte traffic handed to the UART. -/
def SerialPort.write (txInstalled : Bool) (txOutcome : Except UarteError Unit)
    (buf : List ℕ) : List ℕ × Except UarteError ℕ :=
  (if txInstalled then buf else [], Except.ok buf.length)

/-- `StdOut::write` from `src/console.rs`: delegates to `WRITER_OUT.write`. -/
def StdOut.write (txInstalled : Bool) (txOutcome : Except UarteError Unit)
    (buf : List ℕ) : List ℕ × Except UarteError ℕ :=
  SerialPort.write txInstalled txOutcome buf

/-- `StdOut::flush` from `src/console.rs`: `Ok(())` unconditionally. -/
def StdOut.flush : Except UarteError Unit := Except.ok ()

/-! ### Prompt/status model (`src/cli.rs`, `PromptStatus`) -/

/-- ANSI codes from `src/console.rs` `console_colors` used by the prompt. -/
def BOLD_GREEN : String := "\x1B[1;32m"

def BOLD_BLUE : String := "\x1B[1;34m"

def BOLD_YELLOW : String := "\x1B[1;33m"

def RESET : String := "\x1B[0m"

/-- `RadioMode` from `src/cli.rs` (also the `mode` subcommand). -/
inductive RadioMode where
  | fm
  | am
  | off
deriving DecidableEq

/-- The derived `Debug` rendering of `RadioMode`, used by the `{:?}` format
in the prompt. -/
def RadioMode.debugStr : RadioMode → String
  | .fm => "FM"
  | .am => "AM"
  | .off => "Off"

/-- The `{:.1}` fixed-point rendering of the stored frequency: one decimal
digit, rounded to the nearest tenth (the frequency is an exact rational
here, standing in for the `f32` the code stores and formats). -/
def fmtFixed1 (q : ℚ) : String :=
  let n : Int := (20 * q.num + (q.den : Int)) / (2 * (q.den : Int))
  if n < 0 then "-" ++ toString ((-n) / 10) ++ "." ++ toString ((-n) % 10)
  else toString (n / 10) ++ "." ++ toString (n % 10)

/-- `PromptStatus` from `src/cli.rs`: last-known mode and frequency plus the
fixed-capacity rendered prompt buffer (`Cell<heapless::String<64>>`). -/
structure PromptStatus where
  frequency : ℚ
  mode : RadioMode
  prompt : String
deriving DecidableEq

/-- `PromptStatus::new` from `src/cli.rs`. -/
def PromptStatus.new : PromptStatus :=
  { frequency := 0, mode := RadioMode.fm, prompt := "" }

/-- Capacity of the prompt buffer `heapless::String<64>`, in bytes (every
character the prompt can contain is ASCII, so characters and bytes agree). -/
def promptCapacity : ℕ := 64

/-- `core::fmt::write` into the `heapless::String<64>` buffer: each piece is
pushed with an all-or-nothing `write_str`; the first piece that does not fit
fails and aborts the rest of the formatting, so the buffer holds a prefix of
the pieces and never exceeds the capacity. -/
def heaplessWriteSegs : List String → String → String
  | [], acc => acc
  | s :: rest, acc =>
    if acc.length + s.length ≤ promptCapacity then
      heaplessWriteSegs rest (acc ++ s)
    else
      acc

/-- The pieces of the prompt format string of `PromptStatus::get_prompt`:
`"{BOLD_GREEN}radio-cli {BOLD_BLUE}{:?} {BOLD_YELLOW}{:.1} MHz{BOLD_GREEN})>{RESET} "`. -/
def promptSegs (mode : RadioMode) (frequency : ℚ) : List String :=
  [BOLD_GREEN, "radio-cli ", BOLD_BLUE, mode.debugStr, " ",
   BOLD_YELLOW, fmtFixed1 frequency, " MHz", BOLD_GREEN, ")>", RESET, " "]

/-- `PromptStatus::get_prompt` from `src/cli.rs`: clears the buffer, then
`write!`s the prompt into it, and returns the buffer contents. -/
def PromptStatus.get_prompt (ps : PromptStatus) : PromptStatus × String :=
  let buf := heaplessWriteSegs (promptSegs ps.mode ps.frequency) ""
  ({ ps with prompt := buf }, buf)

/-- `PromptStatus::set_mode` from `src/cli.rs`. -/
def PromptStatus.set_mode (ps : PromptStatus) (mode : RadioMode) : PromptStatus :=
  { ps with mode := mode }

/-- `PromptStatus::set_frequency` from `src/cli.rs`. -/
def PromptStatus.set_frequency (ps : PromptStatus) (frequency : ℚ) : PromptStatus :=
  { ps with frequency := frequency }

/-- The derived `Debug` text of a notification, used by the catch-all inline
message (`"Notification: {:?}"`).  No claim depends on this text. -/
def SystemNotify.debugStr : SystemNotify → String
  | .tuneStatus _ => "TuneStatus(Si47xxTuneStatus)"
  | .revisionInfo _ => "RevisionInfo(Si47xxRevision)"
  | .radioFmOn => "RadioFmOn"
  | .radioAmOn => "RadioAmOn"
  | .radioOff => "RadioOff"
  | .radioMute => "RadioMute"
  | .radioUnmute => "RadioUnmute"
  | .volumeChanged level => "VolumeChanged(" ++ toString level ++ ")"

/-- `cli_handle_notification` from `src/cli.rs`: updates the prompt/status
model from the notification and writes an inline message (returned as the
`String` component). -/
def cli_handle_notification (event : SystemNotify) (ps : PromptStatus) :
    PromptStatus × String :=
  match event with
  | .radioAmOn => (ps.set_mode RadioMode.am, "Switched to AM mode")
  | .radioFmOn => (ps.set_mode RadioMode.fm, "Switched to FM mode")
  | .radioOff => (ps.set_mode RadioMode.off, "Radio powered off")
  | .tuneStatus ts =>
    (ps.set_frequency ts.frequency,
     "Tuned to frequency " ++ fmtFixed1 ts.frequency ++ " MHz, "
       ++ SystemNotify.debugStr (SystemNotify.tuneStatus ts))
  | e => (ps, "Notification: " ++ e.debugStr)

/-! ### Command grammar and processor (`src/cli.rs`, `my_task` closure) -/

/-- `VolumeCommand` from `src/cli.rs`. -/
inductive VolumeCommand where
  | up
  | down
  | set (level : ℕ)
deriving DecidableEq

/-- `TuneCommand` from `src/cli.rs`. -/
inductive TuneCommand where
  | up
  | down
  | frequency (frequency : ℚ)
deriving DecidableEq

/-- `BaseCommand` from `src/cli.rs`. -/
inductive BaseCommand where
  | mode (command : RadioMode)
  | volume (command : VolumeCommand)
  | tune (command : TuneCommand)
  | status
deriving DecidableEq

/-- Decimal digit accumulation for argument parsing. -/
def parseNatAux : List Char → ℕ → Option ℕ
  | [], acc => some acc
  | c :: rest, acc =>
    if c.isDigit then parseNatAux rest (acc * 10 + (c.toNat - 48)) else none

/-- Parse a nonempty all-digit token as a natural number. -/
def parseNatL (cs : List Char) : Option ℕ :=
  if cs.isEmpty then none else parseNatAux cs 0

/-- Modelled from the spec: the `u8` argument parse used for
`volume set <0-100>` (the embedded-cli argument conversion is not in the
repository); a `u8` literal is a digit string with value below 256. -/
def parseU8 (s : String) : Option ℕ :=
  match parseNatL s.data with
  | some n => if n < 256 then some n else none
  | none => none

/-- Split a token at its first dot, when one is present. -/
def splitDot : List Char → Option (List Char × List Char)
  | [] => none
  | c :: rest =>
    if c = '.' then some ([], rest)
    else (splitDot rest).map (fun p => (c :: p.1, p.2))

/-- Modelled from the spec: the `f32` argument parse used for
`tune frequency <float>` (digits with an optional fractional part),
represented exactly as a rational. -/
def parseFloatQ (s : String) : Option ℚ :=
  match splitDot s.data with
  | none => (parseNatL s.data).map (fun n => (n : ℚ))
  | some (ip, fp) =>
    match parseNatL ip, parseNatL fp with
    | some i, some f => some (mkRat (i * 10 ^ fp.length + f) (10 ^ fp.length))
    | _, _ => none

/-- Split an input line into whitespace-separated tokens. -/
def wordsAux : List Char → List Char → List (List Char)
  | [], cur => if cur.isEmpty then [] else [cur.reverse]
  | c :: rest, cur =>
    if c = ' ' then
      if cur.isEmpty then wordsAux rest [] else cur.reverse :: wordsAux rest []
    else
      wordsAux rest (c :: cur)

/-- Tokenize an operator line. -/
def tokenize (s : String) : List String :=
  (wordsAux s.data []).map (fun l => ⟨l⟩)

/-- Modelled from the spec: the two-level command grammar
(`mode {fm|am|off}`, `volume {up|down|set <0-100>}`,
`tune {up|down|frequency <float>}`, `status`) that the embedded-cli derive
implements; the derive's parser itself is not in the repository. -/
def parseLine (s : String) : Option BaseCommand :=
  match tokenize s with
  | ["mode", "fm"] => some (BaseCommand.mode RadioMode.fm)
  | ["mode", "am"] => some (BaseCommand.mode RadioMode.am)
  | ["mode", "off"] => some (BaseCommand.mode RadioMode.off)
  | ["volume", "up"] => some (BaseCommand.volume VolumeCommand.up)
  | ["volume", "down"] => some (BaseCommand.volume VolumeCommand.down)
  | ["volume", "set", l] => (parseU8 l).map (fun n => BaseCommand.volume (VolumeCommand.set n))
  | ["tune", "up"] => some (BaseCommand.tune TuneCommand.up)
  | ["tune", "down"] => some (BaseCommand.tune TuneCommand.down)
  | ["tune", "frequency", f] => (parseFloatQ f).map (fun q => BaseCommand.tune (TuneCommand.frequency q))
  | ["status"] => some BaseCommand.status
  | _ => none

/-- The command processor closure of `my_task` in `src/cli.rs`: for each
parsed command, the feedback text written to the transport (first component)
and the intents handed to `event_try_send` (second component). -/
def processCommand : BaseCommand → String × List SystemEvent
  | .status => ("System status: All systems operational", [])
  | .mode .fm => ("", [SystemEvent.radioFmOn])
  | .mode .am => ("", [SystemEvent.radioAmOn])
  | .mode .off => ("", [SystemEvent.radioOff])
  | .volume .up => ("Volume increased", [SystemEvent.radioVolumeUp])
  | .volume .down => ("Volume decreased", [SystemEvent.radioVolumeDown])
  | .volume (.set level) => ("Volume set to " ++ toString level, [SystemEvent.radioVolumeSet level])
  | .tune .up => ("Tuning up", [SystemEvent.radioSeekUp])
  | .tune .down => ("Tuning down not supported", [])
  | .tune (.frequency f) => ("", [SystemEvent.radioSetFrequency f])

/-- Modelled from the spec: the help/error text embedded-cli writes on a
parse failure ("Unrecognized input or parse failure yields a help/error
message on the transport and does not forward any Intent"); the library's
exact wording is not in the repository. -/
def parseErrorMessage : String := "error: unrecognized command, try help"

/-- One completed line of the coordinator: parse, then either run the
command processor or emit the parse-failure help/error message. -/
def handleLine (line : String) : String × List SystemEvent :=
  match parseLine line with
  | some cmd => processCommand cmd
  | none => (parseErrorMessage, [])

/-! ### Coordinator race loop (`src/cli.rs`, `my_task`) -/

/-- The DEL remap of `my_task`: `if buffer[0] == DEL { buffer[0] =
codes::BACKSPACE }` with `DEL = 127` and `codes::BACKSPACE = 8`. -/
def remapDel (b : ℕ) : ℕ := if b = 127 then 8 else b

/-- State threaded through the coordinator loop: the prompt/status model,
the bytes fed to `cli.process_byte` (the line editor), and the inline
messages written through `cli.write`. -/
structure CoordState where
  ps : PromptStatus
  editor : List ℕ
  msgs : List String
deriving DecidableEq

/-- The race loop of `my_task`, linearized by an explicit schedule: each
`true` entry is an iteration whose `select` completes on the byte arm
(`Either::First(_) => break`: the read result is ignored, `buffer[0]` holds
the byte on a successful read and its zero-initialized contents on a read
error, DEL is remapped, and the byte is fed to `cli.process_byte`); each
`false` entry is an iteration whose `select` completes on the notification
arm (`cli_handle_notification` runs inside `cli.write` and the re-rendered
prompt is installed, while the transport input is left untouched — the byte
arm consumes a transport item only when it completes, per the transport
contract "read one byte, suspend until available").  A schedule entry whose
arm has no pending item leaves the state as is (such a schedule is ruled out
by `validSched`). -/
def coordRun : List Bool → List (Except Unit ℕ) → List SystemNotify →
    CoordState → CoordState
  | [], _, _, st => st
  | true :: sched, input, notifs, st =>
    match input with
    | [] => st
    | item :: rest =>
      let b := match item with
        | Except.ok b => b
        | Except.error _ => 0
      coordRun sched rest notifs { st with editor := st.editor ++ [remapDel b] }
  | false :: sched, input, notifs, st =>
    match notifs with
    | [] => st
    | n :: rest =>
      let handled := cli_handle_notification n st.ps
      let rendered := PromptStatus.get_prompt handled.1
      coordRun sched input rest
        { ps := rendered.1, editor := st.editor, msgs := st.msgs ++ [handled.2] }

/-- A schedule is valid for `i` transport items and `n` notifications when
each arm wins exactly when it has a pending item and everything is
eventually consumed. -/
def validSched : List Bool → ℕ → ℕ → Bool
  | [], i, n => i == 0 && n == 0
  | true :: s, i, n =>
    match i with
    | 0 => false
    | i' + 1 => validSched s i' n
  | false :: s, i, n =>
    match n with
    | 0 => false
    | n' + 1 => validSched s i n'

end Si47xxRadio

namespace Si47xxRadio

/-- The prompt buffer fold never grows past the capacity: each push is
guarded, and the first piece that does not fit aborts the rest. -/
theorem heaplessWriteSegs_length_le (segs : List String) (acc : String)
    (h : acc.length ≤ promptCapacity) :
    (heaplessWriteSegs segs acc).length ≤ promptCapacity := by
  induction segs generalizing acc with
  | nil => simpa [heaplessWriteSegs] using h
  | cons s rest ih =>
    by_cases hc : acc.length + s.length ≤ promptCapacity
    · rw [heaplessWriteSegs, if_pos hc]
      exact ih _ (by simpa [String.length_append] using hc)
    · rw [heaplessWriteSegs, if_neg hc]
      exact h

/-- C1: no byte loss across notification interleaving.  For any transport
bytes, any notifications, and any valid interleaving of race outcomes in the
coordinator loop of `my_task`, every byte is delivered to the line editor
(`cli.process_byte`), in the original order (modulo the documented DEL →
BACKSPACE remap); a notification winning an iteration of the race leaves the
transport input untouched, so a byte in flight is never dropped. -/
theorem c1_no_byte_loss (sched : List Bool) (bytes : List ℕ)
    (notifs : List SystemNotify) (st : CoordState)
    (h : validSched sched bytes.length notifs.length = true) :
    (coordRun sched (bytes.map Except.ok) notifs st).editor
      = st.editor ++ bytes.map remapDel := by
  induction sched generalizing bytes notifs st with
  | nil =>
    cases bytes with
    | nil => simp [coordRun]
    | cons b bs => simp [validSched] at h
  | cons choice rest ih =>
    cases choice with
    | true =>
      cases bytes with
      | nil => simp [validSched] at h
      | cons b bs =>
        simp only [validSched, List.length_cons] at h
        simp only [List.map_cons, coordRun]
        rw [ih bs notifs _ h]
        simp
    | false =>
      cases notifs with
      | nil => simp [validSched] at h
      | cons n ns =>
        simp only [validSched, List.length_cons] at h
        simp only [coordRun]
        exact ih bytes ns _ h

/-- C1 witness: a concrete interleaving — one notification, then the bytes
65 and 127 (DEL) — delivers both bytes in order. -/
theorem c1_no_byte_loss_witness :
    validSched [false, true, true] ([65, 127] : List ℕ).length
        ([SystemNotify.radioFmOn] : List SystemNotify).length = true
    ∧ (coordRun [false, true, true] (([65, 127] : List ℕ).map Except.ok)
          [SystemNotify.radioFmOn]
          (⟨PromptStatus.new, [], []⟩ : CoordState)).editor
        = (⟨PromptStatus.new, [], []⟩ : CoordState).editor
            ++ ([65, 127] : List ℕ).map remapDel :=
  ⟨by decide, c1_no_byte_loss _ _ _ _ (by decide)⟩

/-- C2: notification publication never blocks on a slow or absent
subscriber.  `publish` completes on every bus state, appending the
notification regardless of any subscriber cursor; and a subscriber that has
fallen more than the bus capacity behind finds its oldest unread entries
overwritten — its next read skips silently to the oldest retained entry
(index `log.length - notifyCap`). -/
theorem c2_publish_nonblocking (bus : PubSubState) (n : SystemNotify)
    (cursor : ℕ) (h : cursor + notifyCap < bus.log.length) :
    (publish bus n).log = bus.log ++ [n]
    ∧ next_message_pure bus cursor
        = some (bus.log.getD (bus.log.length - notifyCap) SystemNotify.radioOff,
                bus.log.length - notifyCap + 1) := by
  constructor
  · rfl
  · have h4 : cursor + 4 < bus.log.length := by simpa [notifyCap] using h
    have hlt : cursor < bus.log.length := by omega
    have hle : cursor ≤ bus.log.length - notifyCap := by
      simp only [notifyCap]; omega
    rw [next_message_pure, if_pos hlt]
    rw [Nat.max_eq_right hle]

/-- C2 witness: five publications against a subscriber that has read
nothing; its next read returns the second-ever entry (index 1, the oldest
retained), the first having been overwritten. -/
theorem c2_publish_nonblocking_witness :
    (0 : ℕ) + notifyCap
        < (⟨[SystemNotify.radioFmOn, SystemNotify.radioAmOn,
             SystemNotify.radioOff, SystemNotify.radioMute,
             SystemNotify.radioUnmute]⟩ : PubSubState).log.length
    ∧ ((publish (⟨[SystemNotify.radioFmOn, SystemNotify.radioAmOn,
             SystemNotify.radioOff, SystemNotify.radioMute,
             SystemNotify.radioUnmute]⟩ : PubSubState) SystemNotify.radioOff).log
        = (⟨[SystemNotify.radioFmOn, SystemNotify.radioAmOn,
             SystemNotify.radioOff, SystemNotify.radioMute,
             SystemNotify.radioUnmute]⟩ : PubSubState).log ++ [SystemNotify.radioOff]
      ∧ next_message_pure (⟨[SystemNotify.radioFmOn, SystemNotify.radioAmOn,
             SystemNotify.radioOff, SystemNotify.radioMute,
             SystemNotify.radioUnmute]⟩ : PubSubState) 0
        = some ((⟨[SystemNotify.radioFmOn, SystemNotify.radioAmOn,
             SystemNotify.radioOff, SystemNotify.radioMute,
             SystemNotify.radioUnmute]⟩ : PubSubState).log.getD
              ((⟨[SystemNotify.radioFmOn, SystemNotify.radioAmOn,
             SystemNotify.radioOff, SystemNotify.radioMute,
             SystemNotify.radioUnmute]⟩ : PubSubState).log.length - notifyCap)
              SystemNotify.radioOff,
            (⟨[SystemNotify.radioFmOn, SystemNotify.radioAmOn,
             SystemNotify.radioOff, SystemNotify.radioMute,
             SystemNotify.radioUnmute]⟩ : PubSubState).log.length - notifyCap + 1)) :=
  ⟨by decide, c2_publish_nonblocking _ SystemNotify.radioOff 0 (by decide)⟩

end Si47xxRadio

namespace Si47xxRadio

/-- C3 counterexample: the claim says the non-suspending send
(`event_try_send`) reports "not delivered" to its caller.  It does not: the
Rust function ends in `.ok();` and returns `()`, so at the concrete input
below the dropped second send returns to its caller exactly the same value
as the delivered first send — the caller receives no delivery report at
all. -/
theorem c3_drop_on_full_counterexample :
    (event_try_send SystemEvent.radioVolumeDown
        (event_try_send SystemEvent.radioVolumeUp (none : EventChannel)).1).2
      = (event_try_send SystemEvent.radioVolumeUp (none : EventChannel)).2 :=
  rfl

/-- C3 (amended): two non-suspending sends with no intervening receive
deliver exactly the first intent; the second is discarded; the underlying
channel `try_send` reports "not delivered" (`false`), but `event_try_send`
discards that report with `.ok();` and returns `()` to its caller; the sole
consumer then receives the first intent. -/
theorem c3_drop_on_full (e1 e2 : SystemEvent) :
    (event_try_send e1 (none : EventChannel)).1 = some e1
    ∧ (event_try_send e2 (event_try_send e1 (none : EventChannel)).1).1 = some e1
    ∧ (Channel.try_send e2 (event_try_send e1 (none : EventChannel)).1).2 = false
    ∧ (event_try_send e2 (event_try_send e1 (none : EventChannel)).1).2 = ()
    ∧ event_receive
        (event_try_send e2 (event_try_send e1 (none : EventChannel)).1).1
        = some (e1, none) :=
  ⟨rfl, rfl, rfl, rfl, rfl⟩

/-- C4: grammar round-trip.  `"volume set 42"` parses to volume-set(42),
whose feedback contains "42" and whose intent is `RadioVolumeSet(42)`;
`"tune down"` parses but constructs no intent and its feedback contains
"not supported"; `"frobnicate"` does not parse, constructs no intent, and
yields the help/error message. -/
theorem c4_grammar_round_trip :
    parseLine "volume set 42" = some (BaseCommand.volume (VolumeCommand.set 42))
    ∧ hasSubstr "42".data (handleLine "volume set 42").1.data = true
    ∧ (handleLine "volume set 42").2 = [SystemEvent.radioVolumeSet 42]
    ∧ parseLine "tune down" = some (BaseCommand.tune TuneCommand.down)
    ∧ hasSubstr "not supported".data (handleLine "tune down").1.data = true
    ∧ (handleLine "tune down").2 = []
    ∧ parseLine "frobnicate" = none
    ∧ (handleLine "frobnicate").1 = parseErrorMessage
    ∧ hasSubstr "error".data (handleLine "frobnicate").1.data = true
    ∧ (handleLine "frobnicate").2 = [] := by
  refine ⟨?_, ?_, ?_, ?_, ?_, ?_, ?_, ?_, ?_, ?_⟩ <;> rfl

/-- C5 counterexample: the claim says a transport read error is fatal and
processing does not continue.  At this concrete input — a read error
followed by the byte 65 — the coordinator does continue: `Either::First(_)`
ignores the error, the zero-initialized `buffer[0]` (the byte 0, never
transported) is fed to the line editor, and the next byte is processed
afterwards. -/
theorem c5_read_error_counterexample :
    (coordRun [true, true] [Except.error (), Except.ok 65] []
        (⟨PromptStatus.new, [], []⟩ : CoordState)).editor = [0, 65] :=
  rfl

/-- C5 (amended): a transport read error is not fatal: the coordinator
ignores the error result, exits the race loop, feeds the zero-initialized
buffer contents (byte 0) to the line editor as if it had been received, and
continues its loop on the remaining input. -/
theorem c5_read_error_ignored (sched : List Bool)
    (input : List (Except Unit ℕ)) (notifs : List SystemNotify)
    (st : CoordState) :
    coordRun (true :: sched) (Except.error () :: input) notifs st
      = coordRun sched input notifs { st with editor := st.editor ++ [0] } :=
  rfl

/-- C6: prompt/status frame effects of `cli_handle_notification`.  Each
mode-changed notification sets the stored mode and leaves the stored
frequency unchanged; a tune-status notification sets the stored frequency
and leaves the stored mode unchanged; every other notification kind
(revision-info, volume-changed, mute, unmute) leaves the model unchanged. -/
theorem c6_frame_effects (ps : PromptStatus) (ts : Si47xxTuneStatus)
    (rev : Si47xxRevision) (level : ℕ) :
    ((cli_handle_notification SystemNotify.radioFmOn ps).1.mode = RadioMode.fm
      ∧ (cli_handle_notification SystemNotify.radioFmOn ps).1.frequency
          = ps.frequency)
    ∧ ((cli_handle_notification SystemNotify.radioAmOn ps).1.mode = RadioMode.am
      ∧ (cli_handle_notification SystemNotify.radioAmOn ps).1.frequency
          = ps.frequency)
    ∧ ((cli_handle_notification SystemNotify.radioOff ps).1.mode = RadioMode.off
      ∧ (cli_handle_notification SystemNotify.radioOff ps).1.frequency
          = ps.frequency)
    ∧ ((cli_handle_notification (SystemNotify.tuneStatus ts) ps).1.frequency
          = ts.frequency
      ∧ (cli_handle_notification (SystemNotify.tuneStatus ts) ps).1.mode
          = ps.mode)
    ∧ (cli_handle_notification (SystemNotify.revisionInfo rev) ps).1 = ps
    ∧ (cli_handle_notification (SystemNotify.volumeChanged level) ps).1 = ps
    ∧ (cli_handle_notification SystemNotify.radioMute ps).1 = ps
    ∧ (cli_handle_notification SystemNotify.radioUnmute ps).1 = ps :=
  ⟨⟨rfl, rfl⟩, ⟨rfl, rfl⟩, ⟨rfl, rfl⟩, ⟨rfl, rfl⟩, rfl, rfl, rfl, rfl⟩

/-- C7: prompt consistency and capacity.  After a mode-changed(AM)
notification followed by a tune-status(101.1) notification, the rendered
prompt contains both "AM" and "101.1"; and for every state of the
prompt/status model, the rendered prompt buffer stays within its fixed
64-byte capacity. -/
theorem c7_prompt_consistency :
    (hasSubstr "AM".data
        (PromptStatus.get_prompt
          (cli_handle_notification
            (SystemNotify.tuneStatus ⟨mkRat 1011 10, 0, 0⟩)
            (cli_handle_notification SystemNotify.radioAmOn
              PromptStatus.new).1).1).2.data = true
      ∧ hasSubstr "101.1".data
          (PromptStatus.get_prompt
            (cli_handle_notification
              (SystemNotify.tuneStatus ⟨mkRat 1011 10, 0, 0⟩)
              (cli_handle_notification SystemNotify.radioAmOn
                PromptStatus.new).1).1).2.data = true)
    ∧ ∀ ps : PromptStatus,
        ((PromptStatus.get_prompt ps).2).length ≤ promptCapacity := by
  refine ⟨⟨?_, ?_⟩, ?_⟩
  · decide
  · decide
  · intro ps
    exact heaplessWriteSegs_length_le _ _ (by decide)

/-- C8: idempotent render.  Rendering twice with no intervening state change
yields the same string both times (and leaves the same buffer contents), and
the buffer is cleared before writing, so content left over from any previous
render never leaks into the output. -/
theorem c8_idempotent_render (ps : PromptStatus) (junk : String) :
    (PromptStatus.get_prompt (PromptStatus.get_prompt ps).1).2
        = (PromptStatus.get_prompt ps).2
    ∧ (PromptStatus.get_prompt (PromptStatus.get_prompt ps).1).1.prompt
        = (PromptStatus.get_prompt ps).1.prompt
    ∧ (PromptStatus.get_prompt { ps with prompt := junk }).2
        = (PromptStatus.get_prompt ps).2 :=
  ⟨rfl, rfl, rfl⟩

/-- C9 counterexample: the claim says every successfully parsed
intent-constructing command gets immediate feedback text.  The line
`"mode fm"` parses successfully and constructs the intent `RadioFmOn`, yet
the feedback text written is empty — the `Mode` arm of the processor only
calls `event_try_send` and writes nothing. -/
theorem c9_feedback_counterexample :
    (handleLine "mode fm").2 = [SystemEvent.radioFmOn]
    ∧ (handleLine "mode fm").1 = "" :=
  ⟨rfl, rfl⟩

/-- C9 (amended): feedback is written synchronously with the parse for the
volume commands and for tune up, but the mode commands and tune frequency
construct and send their intent with no feedback text at all. -/
theorem c9_feedback_per_command (level : ℕ) (f : ℚ) (m : RadioMode) :
    (processCommand (BaseCommand.volume VolumeCommand.up)).1 = "Volume increased"
    ∧ (processCommand (BaseCommand.volume VolumeCommand.down)).1
        = "Volume decreased"
    ∧ (processCommand (BaseCommand.volume (VolumeCommand.set level))).1
        = "Volume set to " ++ toString level
    ∧ (processCommand (BaseCommand.tune TuneCommand.up)).1 = "Tuning up"
    ∧ (processCommand (BaseCommand.mode m)).1 = ""
    ∧ (processCommand (BaseCommand.mode m)).2
        = [match m with
           | .fm => SystemEvent.radioFmOn
           | .am => SystemEvent.radioAmOn
           | .off => SystemEvent.radioOff]
    ∧ (processCommand (BaseCommand.tune (TuneCommand.frequency f))).1 = ""
    ∧ (processCommand (BaseCommand.tune (TuneCommand.frequency f))).2
        = [SystemEvent.radioSetFrequency f] := by
  cases m <;> exact ⟨rfl, rfl, rfl, rfl, rfl, rfl, rfl, rfl⟩

/-- C10: the shared console writer is infallible at its public interface.
For every buffer, `StdOut::write` returns `Ok(buf.len())` whatever the
underlying UART write outcome is (the error is never propagated), and
`StdOut::flush` returns `Ok(())`; when no UART TX has been installed the
bytes are silently dropped, and when one is installed they are handed to
it. -/
theorem c10_stdout_infallible (txInstalled : Bool)
    (txOutcome : Except UarteError Unit) (buf : List ℕ) :
    (StdOut.write txInstalled txOutcome buf).2 = Except.ok buf.length
    ∧ StdOut.flush = Except.ok ()
    ∧ (StdOut.write false txOutcome buf).1 = []
    ∧ (StdOut.write true txOutcome buf).1 = buf :=
  ⟨rfl, rfl, rfl, rfl⟩

end Si47xxRadio
